import Mathlib

/-!
Shallow embedding of the astrology-app core (planetary positions, divisional
charts, Vimshottari dasha engine, Sthana/Dig Bala, time normalizer) over exact
rational arithmetic, together with theorems checking the specification's
claims against it.  Python floats are modelled as `ℚ`, Python `datetime`
values as day/second counts in the proleptic Gregorian calendar with the
CPython year range 1..9999.  String-formatting output (dms strings, strftime,
`round(x, 3)` display rounding) is presentational and not modelled.
-/

/-- Truncation toward zero, the behaviour of Python `int()` on a number. -/
def pyInt (q : ℚ) : ℤ := if q < 0 then -⌊-q⌋ else ⌊q⌋

/-- Python `x % m` on numbers (sign of the result follows the divisor;
for `m > 0` the result lies in `[0, m)`). -/
def qmod (x m : ℚ) : ℚ := x - m * ⌊x / m⌋

/-- Python `math.ceil`. -/
def pyCeil (q : ℚ) : ℤ := ⌈q⌉

/-- Python banker's rounding to the nearest integer (`round(q)`):
half-way values go to the nearest even integer. -/
def roundHalfEven (q : ℚ) : ℤ := if Int.fract q = 1/2 then 2 * round (q / 2) else round q

/-- Python `round(q, 2)`. -/
def round2 (q : ℚ) : ℚ := (roundHalfEven (q * 100) : ℚ) / 100

/-! ## constants.py -/

def ZODIAC_SIGNS : List String :=
  ["Aries", "Taurus", "Gemini", "Cancer", "Leo", "Virgo", "Libra", "Scorpio",
   "Sagittarius", "Capricorn", "Aquarius", "Pisces"]

def NAKSHATRAS : List String :=
  ["Ashwini", "Bharani", "Krittika", "Rohini", "Mrigashira", "Ardra", "Punarvasu",
   "Pushya", "Ashlesha", "Magha", "Purva Phalguni", "Uttara Phalguni", "Hasta",
   "Chitra", "Swati", "Vishakha", "Anuradha", "Jyeshtha", "Mula", "Purva Ashadha",
   "Uttara Ashadha", "Shravana", "Dhanishta", "Shatabhisha", "Purva Bhadrapada",
   "Uttara Bhadrapada", "Revati"]

def VIMSHOTTARI_PLANETS : List String :=
  ["Ketu", "Venus", "Sun", "Moon", "Mars", "Rahu", "Jupiter", "Saturn", "Mercury"]

/-- The `VIMSHOTTARI_DURATIONS` dict (years per planet); a missing key, which
in Python would raise, is mapped to 0. -/
def VIMSHOTTARI_DURATIONS (p : String) : ℕ :=
  if p = "Ketu" then 7 else if p = "Venus" then 20 else if p = "Sun" then 6
  else if p = "Moon" then 10 else if p = "Mars" then 7 else if p = "Rahu" then 18
  else if p = "Jupiter" then 16 else if p = "Saturn" then 19
  else if p = "Mercury" then 17 else 0

def NAKSHATRA_SPAN : ℚ := 13 + 20 / 60

def NAKSHATRA_PADA_SPAN : ℚ := 3 + 20 / 60

/-- The constant `DAYS_PER_YEAR = 365.2422`, used only for the initial elapsed/balance step. -/
def DAYS_PER_YEAR : ℚ := 3652422 / 10000

def NAKSHATRA_TO_PLANET : List String :=
  ["Ketu", "Venus", "Sun", "Moon", "Mars", "Rahu", "Jupiter", "Saturn", "Mercury"]

def NAKSHATRA_BOUNDARIES : List (ℚ × ℚ) :=
  (List.range 27).map (fun i => ((i : ℚ) * NAKSHATRA_SPAN, ((i : ℚ) + 1) * NAKSHATRA_SPAN))

/-- Python list indexing with a natural index, out of range giving a default. -/
def signAt (i : ℕ) : String := ZODIAC_SIGNS.getD i ""

def nakshatraAt (i : ℕ) : String := NAKSHATRAS.getD i ""

def planetAt (i : ℕ) : String := VIMSHOTTARI_PLANETS.getD i ""

/-- Python list indexing where a negative index counts from the end
(`lst[-1]` is the last element). -/
def pyListGet (l : List String) (j : ℤ) : String :=
  if j < 0 then l.getD (l.length - (-j).toNat) "" else l.getD j.toNat ""

/-! ## services/planetary.py -/

/-- One entry of the `planets` dict built by `calculate_planet_positions`
(the dms display strings are presentational and omitted). -/
structure PlanetData where
  longitude : ℚ
  sign : String
  house : ℕ
  degrees_in_sign : ℚ
  nakshatra : String
  pada : ℕ
  retrograde : String
deriving DecidableEq

/-- The result dict of `calculate_planet_positions`. -/
structure ChartPositions where
  ayanamsa : ℚ
  ascendant_longitude : ℚ
  ascendant_sign : String
  midheaven : ℚ
  planets : List (String × PlanetData)
deriving DecidableEq

/-- The fixed `planet_list` of queried Swiss Ephemeris body ids. -/
def planet_list : List (ℕ × String) :=
  [(0, "Sun"), (1, "Moon"), (2, "Mercury"), (3, "Venus"), (4, "Mars"),
   (5, "Jupiter"), (6, "Saturn"), (10, "Rahu")]

/-- Embedding of `calculate_planet_positions`.  The ephemeris adapter is an
input: `cusp0`/`mc` are the tropical first cusp and midheaven returned by
`swe.houses`, and `trop`/`speed` give the tropical longitude and longitude
speed returned by `swe.calc_ut` for each queried body id. -/
def calculate_planet_positions (ayanamsa cusp0 mc : ℚ) (trop speed : ℕ → ℚ) :
    ChartPositions :=
  let sidereal_asc := qmod (cusp0 - ayanamsa) 360
  let sidereal_mc := qmod (mc - ayanamsa) 360
  let lagna_sign_index := (pyInt (sidereal_asc / 30)).toNat
  let lagna : PlanetData :=
    { longitude := sidereal_asc
      sign := signAt lagna_sign_index
      house := 1
      degrees_in_sign := qmod sidereal_asc 30
      nakshatra := nakshatraAt (pyInt (sidereal_asc / NAKSHATRA_SPAN)).toNat
      pada := ((pyInt (qmod sidereal_asc NAKSHATRA_SPAN / NAKSHATRA_PADA_SPAN)) + 1).toNat
      retrograde := "no" }
  let mkBody : ℕ → PlanetData := fun pid =>
    let sid := qmod (trop pid - ayanamsa) 360
    let sign_index := (pyInt (sid / 30)).toNat
    { longitude := sid
      sign := signAt sign_index
      house := (((sign_index : ℤ) - lagna_sign_index + 12) % 12 + 1).toNat
      degrees_in_sign := qmod sid 30
      nakshatra := nakshatraAt (pyInt (sid / NAKSHATRA_SPAN)).toNat
      pada := ((pyInt (qmod sid NAKSHATRA_SPAN / NAKSHATRA_PADA_SPAN)) + 1).toNat
      retrograde := if speed pid < 0 then "yes" else "no" }
  let ketu_long := qmod (qmod (trop 10 - ayanamsa) 360 + 180) 360
  let ketu_sign_index := (pyInt (ketu_long / 30)).toNat
  let ketu : PlanetData :=
    { longitude := ketu_long
      sign := signAt ketu_sign_index
      house := (((ketu_sign_index : ℤ) - lagna_sign_index + 12) % 12 + 1).toNat
      degrees_in_sign := qmod ketu_long 30
      nakshatra := nakshatraAt (pyInt (ketu_long / NAKSHATRA_SPAN)).toNat
      pada := ((pyInt (qmod ketu_long NAKSHATRA_SPAN / NAKSHATRA_PADA_SPAN)) + 1).toNat
      retrograde := "yes" }
  { ayanamsa := ayanamsa
    ascendant_longitude := sidereal_asc
    ascendant_sign := signAt (pyInt (sidereal_asc / 30)).toNat
    midheaven := sidereal_mc
    planets := ("Lagna", lagna) :: planet_list.map (fun pn => (pn.2, mkBody pn.1))
                 ++ [("Ketu", ketu)] }

/-- Lookup of a planet in the result dict. -/
def getPlanet (ch : ChartPositions) (name : String) : Option PlanetData :=
  ch.planets.lookup name

/-! ## services/divisional_charts.py (Trimsamsa, D-30) -/

def odd_sign_indices : List ℕ := [0, 2, 4, 6, 8, 10]

/-- The `odd_ranges` table of `calculate_trimsamsa`: (start, end, sign index). -/
def odd_ranges : List (ℚ × ℚ × ℕ) := [(0, 5, 0), (5, 10, 1), (10, 18, 2), (18, 25, 5), (25, 30, 6)]

/-- The `even_ranges` table of `calculate_trimsamsa`. -/
def even_ranges : List (ℚ × ℚ × ℕ) := [(0, 5, 7), (5, 12, 8), (12, 20, 11), (20, 25, 9), (25, 30, 10)]

/-- Parity table selection of `calculate_trimsamsa`. -/
def trimsamsaRanges (rasi_sign : String) : List (ℚ × ℚ × ℕ) :=
  if ZODIAC_SIGNS.indexOf rasi_sign ∈ odd_sign_indices then odd_ranges else even_ranges

/-- Per-planet body of `calculate_trimsamsa`: bucket the degrees within the
sign through the parity table (first matching range wins), with the explicit
special case mapping exactly 30 degrees to the last range. -/
def calculate_trimsamsa_sign (rasi_sign : String) (degrees_in_sign : ℚ) : Option String :=
  let ranges := trimsamsaRanges rasi_sign
  match ranges.find? (fun r => decide (r.1 ≤ degrees_in_sign) && decide (degrees_in_sign < r.2.1)) with
  | some r => some (signAt r.2.2)
  | none => if degrees_in_sign = 30 then some (signAt ((ranges.getLastD (0, 0, 0)).2.2)) else none

/-! ## services/bala.py -/

/-- The `exaltation_points` dict: planet to (sign index, degree). -/
def exaltation_points : List (String × ℕ × ℕ) :=
  [("Sun", (0, 10)), ("Moon", (1, 3)), ("Mars", (9, 28)), ("Mercury", (5, 15)),
   ("Jupiter", (3, 5)), ("Venus", (11, 27)), ("Saturn", (6, 20)),
   ("Rahu", (1, 20)), ("Ketu", (7, 20))]

/-- The `dignity_points` dict (the debilitation entry exists but is never
selected by the classification chain). -/
def dignity_points (category : String) : ℕ :=
  if category = "exaltation" then 30 else if category = "moolatrikona" then 25
  else if category = "own" then 20 else if category = "great_friend" then 15
  else if category = "friend" then 10 else if category = "neutral" then 5
  else if category = "enemy" then 4 else if category = "great_enemy" then 3
  else if category = "debilitation" then 2 else 0

def moolatrikona_signs : List (String × String) :=
  [("Sun", "Leo"), ("Moon", "Taurus"), ("Mars", "Aries"), ("Mercury", "Virgo"),
   ("Jupiter", "Sagittarius"), ("Venus", "Libra"), ("Saturn", "Aquarius")]

def friends : List (String × List String) :=
  [("Sun", ["Moon", "Mars", "Jupiter"]), ("Moon", ["Sun", "Mercury"]),
   ("Mars", ["Sun", "Moon", "Jupiter"]), ("Mercury", ["Sun", "Venus"]),
   ("Jupiter", ["Sun", "Moon", "Mars"]), ("Venus", ["Mercury", "Saturn"]),
   ("Saturn", ["Mercury", "Venus"])]

def enemies : List (String × List String) :=
  [("Sun", ["Venus", "Saturn"]), ("Moon", ["Mars", "Jupiter", "Saturn", "Venus"]),
   ("Mars", ["Mercury"]), ("Mercury", ["Moon"]), ("Jupiter", ["Mercury", "Venus"]),
   ("Venus", ["Sun", "Moon"]), ("Saturn", ["Sun", "Moon", "Mars"])]

def great_friends : List (String × List String) :=
  [("Sun", ["Jupiter"]), ("Moon", ["Mercury"]), ("Mars", ["Jupiter"]),
   ("Mercury", ["Venus"]), ("Jupiter", ["Sun"]), ("Venus", ["Saturn"]),
   ("Saturn", ["Venus"])]

def great_enemies : List (String × List String) :=
  [("Sun", ["Saturn"]), ("Moon", []), ("Mars", []), ("Mercury", []),
   ("Jupiter", []), ("Venus", []), ("Saturn", ["Mars"])]

/-- The test `planet in table and varga_sign in table[planet]` on one of the
friendship/enmity dicts. -/
def inTable (t : List (String × List String)) (planet varga_sign : String) : Bool :=
  match t.lookup planet with
  | some l => l.contains varga_sign
  | none => false

/-- The own-sign condition of the Saptavargaja classification chain. -/
def ownSignTest (planet varga_sign : String) : Prop :=
  (planet = "Jupiter" ∧ (varga_sign = "Sagittarius" ∨ varga_sign = "Pisces")) ∨
  (planet = "Sun" ∧ varga_sign = "Leo") ∨
  (planet = "Moon" ∧ varga_sign = "Cancer") ∨
  (planet = "Mars" ∧ (varga_sign = "Aries" ∨ varga_sign = "Scorpio")) ∨
  (planet = "Mercury" ∧ (varga_sign = "Gemini" ∨ varga_sign = "Virgo")) ∨
  (planet = "Venus" ∧ (varga_sign = "Taurus" ∨ varga_sign = "Libra")) ∨
  (planet = "Saturn" ∧ (varga_sign = "Capricorn" ∨ varga_sign = "Aquarius"))

instance (planet varga_sign : String) : Decidable (ownSignTest planet varga_sign) := by
  unfold ownSignTest; infer_instance

/-- The test `planet in exaltation_points and ZODIAC_SIGNS[exaltation_points[planet][0]] == varga_sign`. -/
def exaltSignTest (planet varga_sign : String) : Bool :=
  match exaltation_points.lookup planet with
  | some ep => signAt ep.1 == varga_sign
  | none => false

/-- The test `planet in moolatrikona_signs and moolatrikona_signs[planet] == varga_sign`. -/
def moolaSignTest (planet varga_sign : String) : Bool :=
  match moolatrikona_signs.lookup planet with
  | some s => s == varga_sign
  | none => false

/-- The per-varga-sign dignity classification chain of the Saptavargaja Bala
loop in `calculate_sthana_bala`, returning the awarded points. -/
def dignityPointsFor (planet varga_sign : String) : ℕ :=
  if exaltSignTest planet varga_sign then dignity_points "exaltation"
  else if moolaSignTest planet varga_sign then dignity_points "moolatrikona"
  else if ownSignTest planet varga_sign then dignity_points "own"
  else if inTable great_friends planet varga_sign then dignity_points "great_friend"
  else if inTable friends planet varga_sign then dignity_points "friend"
  else if inTable great_enemies planet varga_sign then dignity_points "great_enemy"
  else if inTable enemies planet varga_sign then dignity_points "enemy"
  else dignity_points "neutral"

def odd_sign_idx_list : List ℕ := [0, 2, 4, 6, 8, 10]

def male_planets : List String := ["Sun", "Mars", "Jupiter"]

def female_planets : List String := ["Moon", "Venus"]

/-- The five Sthana Bala subcomponents for one planet, in shashtiamshas
(the rupa value is the same divided by 60, and the serialized dict rounds
both to 3 decimals for display; neither is modelled separately). -/
structure SthanaBala where
  uchcha : ℚ
  saptavargaja : ℚ
  oja_yugma : ℚ
  kendradi : ℚ
  drekkana : ℚ
  total : ℚ
deriving DecidableEq

/-- Shorter-arc angular distance as computed by the Uchcha Bala step. -/
def angularDistance (a b : ℚ) : ℚ := min (qmod (a - b) 360) (qmod (b - a) 360)

/-- Loop body of `calculate_sthana_bala` for one planet.  `rasi_sign` and
`degrees_in_sign` come from the kundali, `asc_sign` is the ascendant sign, and
the six varga signs are the entries of the six divisional-chart dicts. -/
def calculate_sthana_for_planet (planet rasi_sign : String) (degrees_in_sign : ℚ)
    (asc_sign hora_sign drekkana_sign saptamsa_sign navamsa_sign dwadasamsa_sign
     trimsamsa_sign : String) : SthanaBala :=
  let rasi_sign_idx := ZODIAC_SIGNS.indexOf rasi_sign
  let uchcha : ℚ :=
    match exaltation_points.lookup planet with
    | some ep =>
      let exalt_long : ℚ := (ep.1 : ℚ) * 30 + (ep.2 : ℚ)
      let planet_long : ℚ := (rasi_sign_idx : ℚ) * 30 + degrees_in_sign
      60 * (1 - angularDistance planet_long exalt_long / 180)
    | none => 0
  let varga_signs := [rasi_sign, hora_sign, drekkana_sign, saptamsa_sign,
                      navamsa_sign, dwadasamsa_sign, trimsamsa_sign]
  let saptavargaja : ℚ := ((varga_signs.map (dignityPointsFor planet)).sum : ℚ) / 7
  let rasi_is_odd := rasi_sign_idx ∈ odd_sign_idx_list
  let navamsa_is_odd := ZODIAC_SIGNS.indexOf navamsa_sign ∈ odd_sign_idx_list
  let oja_yugma : ℚ :=
    if planet ∈ male_planets then
      (if rasi_is_odd then 15 else 0) + (if navamsa_is_odd then 15 else 0)
    else if planet ∈ female_planets then
      (if ¬rasi_is_odd then 15 else 0) + (if ¬navamsa_is_odd then 15 else 0)
    else
      (if rasi_is_odd then 15 else 0) + (if navamsa_is_odd then 15 else 0)
  let house_number := (((rasi_sign_idx : ℤ) - ZODIAC_SIGNS.indexOf asc_sign + 12) % 12 + 1).toNat
  let kendradi : ℚ :=
    if house_number = 1 ∨ house_number = 4 ∨ house_number = 7 ∨ house_number = 10 then 60
    else if house_number = 2 ∨ house_number = 5 ∨ house_number = 8 ∨ house_number = 11 then 30
    else 15
  let drekkana_part := pyCeil (degrees_in_sign / 10)
  let drekkana : ℚ :=
    if planet ∈ male_planets ∧ drekkana_part = 1 then 15
    else if planet ∈ female_planets ∧ drekkana_part = 2 then 15
    else if planet ∉ male_planets ∧ planet ∉ female_planets ∧ drekkana_part = 3 then 15
    else 0
  { uchcha := uchcha
    saptavargaja := saptavargaja
    oja_yugma := oja_yugma
    kendradi := kendradi
    drekkana := drekkana
    total := uchcha + saptavargaja + oja_yugma + kendradi + drekkana }

/-! Specification-side restatement of the Saptavargaja dignity rubric, written
from the claim's words: a per-chart dignity category decided (in the stated
priority order) by the exaltation point, the moolatrikona sign, the own signs
and the fixed per-planet friendship/enmity tables, with exaltation=30,
moolatrikona=25, own=20, great-friend=15, friend=10, neutral=5, enemy=4,
great-enemy=3. -/

inductive DignityCategory where
  | exaltation | moolatrikona | own | greatFriend | friendly | greatEnemy | enemyOf | neutral
deriving DecidableEq

/-- Category decision from the claim: the fixed tables decide the category. -/
def dignityCategorySpec (planet varga_sign : String) : DignityCategory :=
  if exaltSignTest planet varga_sign then .exaltation
  else if moolaSignTest planet varga_sign then .moolatrikona
  else if ownSignTest planet varga_sign then .own
  else if inTable great_friends planet varga_sign then .greatFriend
  else if inTable friends planet varga_sign then .friendly
  else if inTable great_enemies planet varga_sign then .greatEnemy
  else if inTable enemies planet varga_sign then .enemyOf
  else .neutral

/-- Points per dignity category, exactly as the claim lists them. -/
def dignityCategoryPoints : DignityCategory → ℕ
  | .exaltation => 30
  | .moolatrikona => 25
  | .own => 20
  | .greatFriend => 15
  | .friendly => 10
  | .greatEnemy => 3
  | .enemyOf => 4
  | .neutral => 5

/-- Per-chart dignity score as the claim words it. -/
def dignityPointsSpec (planet varga_sign : String) : ℕ :=
  dignityCategoryPoints (dignityCategorySpec planet varga_sign)

/-! ## services/dasha.py -/

/-- One dasha period: ruling planet, start and end (as rational day numbers;
the source formats them as date strings for output), and the list of child
sub-periods (the source stores them under a level-dependent dict key). -/
inductive DashaPeriod where
  | mk (planet : String) (start stop : ℚ) (subs : List DashaPeriod)

def DashaPeriod.planet : DashaPeriod → String
  | .mk p _ _ _ => p

def DashaPeriod.start : DashaPeriod → ℚ
  | .mk _ s _ _ => s

def DashaPeriod.stop : DashaPeriod → ℚ
  | .mk _ _ e _ => e

def DashaPeriod.subs : DashaPeriod → List DashaPeriod
  | .mk _ _ _ c => c

/-- The `for i in range(9)` sub-period loop of `calculate_dasha_period`:
`mkSub` builds one child recursively, `i` is the loop counter, `k` the number
of iterations left, `sub_start` the running start date. -/
def dashaSubsGo (mkSub : String → ℚ → ℚ → ℕ → DashaPeriod)
    (duration_years : ℚ) (planet_index : ℕ) : ℕ → ℕ → ℚ → List DashaPeriod
  | _, 0, _ => []
  | i, Nat.succ k, sub_start =>
    let sub_planet_index := (planet_index + i) % 9
    let sub_planet := planetAt sub_planet_index
    let sub_duration_years := duration_years * (VIMSHOTTARI_DURATIONS sub_planet : ℚ) / 120
    let sub_duration_days := sub_duration_years * (1461 / 4 : ℚ)
    let sub_end := sub_start + sub_duration_days
    mkSub sub_planet sub_start sub_end sub_planet_index ::
      dashaSubsGo mkSub duration_years planet_index (i + 1) k sub_end

/-- Embedding of `calculate_dasha_period` (365.25 = 1461/4 days per year). -/
def calculate_dasha_period (planet : String) (start_date end_date : ℚ)
    (planet_index level max_level : ℕ) : DashaPeriod :=
  if level ≥ max_level ∨ max_level = 0 then .mk planet start_date end_date []
  else
    let duration_days := end_date - start_date
    let duration_years := duration_days / (1461 / 4 : ℚ)
    .mk planet start_date end_date
      (dashaSubsGo (fun p s e i => calculate_dasha_period p s e i (level + 1) max_level)
        duration_years planet_index 0 9 start_date)
termination_by max_level - level
decreasing_by omega

/-- The `while remaining_years > 0` loop of `generate_dasha_timeline`.  The
source loop always terminates after at most nine iterations (each planet's
duration is positive); the `fuel` argument makes that explicit. -/
def genLoop (max_level : ℕ) : ℕ → ℕ → ℚ → ℕ → List DashaPeriod
  | 0, _, _, _ => []
  | Nat.succ fuel, remaining_years, current_date, current_planet_index =>
    if remaining_years = 0 then []
    else
      let planet := planetAt current_planet_index
      let duration := min (VIMSHOTTARI_DURATIONS planet) remaining_years
      let mahadasha_end := current_date + (duration : ℚ) * (1461 / 4 : ℚ)
      calculate_dasha_period planet current_date mahadasha_end current_planet_index 0 max_level ::
        genLoop max_level fuel (remaining_years - duration) mahadasha_end
          ((current_planet_index + 1) % 9)

/-- Embedding of `generate_dasha_timeline`: a full 120-year Vimshottari cycle
starting at `start_date` with the planet at `planet_index`. -/
def generate_dasha_timeline (start_date : ℚ) (planet_index : ℕ) (max_level : ℕ) :
    List DashaPeriod :=
  genLoop max_level 120 120 start_date planet_index

/-! ## Proleptic Gregorian calendar (the model of Python `datetime`) -/

def isLeap (y : ℕ) : Bool := y % 4 == 0 && (y % 100 != 0 || y % 400 == 0)

def daysInMonth (y m : ℕ) : ℕ :=
  if m = 2 then (if isLeap y then 29 else 28)
  else if m = 1 ∨ m = 3 ∨ m = 5 ∨ m = 7 ∨ m = 8 ∨ m = 10 ∨ m = 12 then 31
  else if m = 4 ∨ m = 6 ∨ m = 9 ∨ m = 11 then 30
  else 0

/-- Days of year `y` before the first of month `m` (for `1 ≤ m ≤ 13`). -/
def daysBeforeMonth (y : ℕ) : ℕ → ℕ
  | 0 => 0
  | 1 => 0
  | Nat.succ m => daysBeforeMonth y m + daysInMonth y m

/-- Days before January 1 of year `y`, counted from January 1 of year 1. -/
def daysBeforeYear (y : ℕ) : ℕ :=
  365 * (y - 1) + (y - 1) / 4 - (y - 1) / 100 + (y - 1) / 400

/-- Python `date.toordinal()`: day 1 is January 1 of year 1. -/
def toOrdinal (y m d : ℕ) : ℕ := daysBeforeYear y + daysBeforeMonth y m + d

/-- Linear search for the year containing ordinal day `n`, starting at `y`. -/
def findYear : ℕ → ℕ → ℕ → ℕ
  | 0, y, _ => y
  | Nat.succ fuel, y, n => if n ≤ daysBeforeYear (y + 1) then y else findYear fuel (y + 1) n

/-- Linear search for the month of year `y` containing day-of-year `rem`. -/
def findMonth (y : ℕ) : ℕ → ℕ → ℕ → ℕ
  | 0, m, _ => m
  | Nat.succ fuel, m, rem =>
    if rem ≤ daysBeforeMonth y (m + 1) then m else findMonth y fuel (m + 1) rem

/-- Python `date.fromordinal`: the (year, month, day) of ordinal day `n`. -/
def fromOrdinal (n : ℕ) : ℕ × ℕ × ℕ :=
  let y := findYear 10000 1 n
  let rem := n - daysBeforeYear y
  let m := findMonth y 12 1 rem
  let d := rem - daysBeforeMonth y m
  (y, m, d)

/-! ## models.py / utils.py -/

/-- The `BirthData` pydantic model.  Its validators force a real calendar
date (which bounds the year to Python datetime range 1..9999), hour in
[0, 24), minute and second in [0, 60), latitude in [-90, 90], longitude in
[-180, 180]. -/
structure BirthData where
  year : ℕ
  month : ℕ
  day : ℕ
  hour : ℚ
  minute : ℚ
  second : ℚ
  latitude : ℚ
  longitude : ℚ
deriving DecidableEq

/-- What the `BirthData` validators guarantee. -/
def validBirthData (b : BirthData) : Prop :=
  1 ≤ b.year ∧ b.year ≤ 9999 ∧ 1 ≤ b.month ∧ b.month ≤ 12 ∧
  1 ≤ b.day ∧ b.day ≤ daysInMonth b.year b.month ∧
  0 ≤ b.hour ∧ b.hour < 24 ∧ 0 ≤ b.minute ∧ b.minute < 60 ∧
  0 ≤ b.second ∧ b.second < 60 ∧
  -90 ≤ b.latitude ∧ b.latitude ≤ 90 ∧ -180 ≤ b.longitude ∧ b.longitude ≤ 180

instance (b : BirthData) : Decidable (validBirthData b) := by
  unfold validBirthData; infer_instance

/-- Failure modes of `sanitize_birth_data`: a `ValueError` (validation) or an
uncaught `OverflowError` from `datetime` arithmetic leaving the supported
year range 1..9999. -/
inductive SanitizeError where
  | validation
  | overflow
deriving DecidableEq

/-- Civil seconds since 0001-01-01 00:00:00 of the local datetime the source
builds with `int(data.hour)`, `int(data.minute)`, `int(data.second)`. -/
def localCivilSeconds (b : BirthData) : ℤ :=
  ((toOrdinal b.year b.month b.day : ℤ) - 1) * 86400 +
    pyInt b.hour * 3600 + pyInt b.minute * 60 + pyInt b.second

/-- Civil seconds since 0001-01-01 00:00:00 of a `BirthData` taken at face
value (used to state calendar correctness of the UTC conversion). -/
def birthTimestamp (b : BirthData) : ℚ :=
  ((toOrdinal b.year b.month b.day : ℚ) - 1) * 86400 +
    b.hour * 3600 + b.minute * 60 + b.second

/-- One past the last second representable by Python `datetime`
(9999-12-31 ends at ordinal `toOrdinal 9999 12 31` days). -/
def DATETIME_MAX_SECONDS : ℕ := toOrdinal 9999 12 31 * 86400

/-- Embedding of `sanitize_birth_data`: validates the timezone offset, builds
the truncated local datetime, subtracts the offset (Python raises an
`OverflowError` when the result leaves the supported calendar), and returns
the original data, the UTC-shifted data and the rounded offset. -/
def sanitize_birth_data (data : BirthData) (tz_offset : ℚ) :
    Except SanitizeError (BirthData × BirthData × ℚ) :=
  if ¬(-12 ≤ tz_offset ∧ tz_offset ≤ 14) then .error .validation
  else
    let tz := round2 tz_offset
    if ¬(1 ≤ data.year ∧ data.year ≤ 9999 ∧ 1 ≤ data.month ∧ data.month ≤ 12 ∧
         1 ≤ data.day ∧ data.day ≤ daysInMonth data.year data.month ∧
         0 ≤ pyInt data.hour ∧ pyInt data.hour ≤ 23 ∧
         0 ≤ pyInt data.minute ∧ pyInt data.minute ≤ 59 ∧
         0 ≤ pyInt data.second ∧ pyInt data.second ≤ 59) then .error .validation
    else
      let utcSeconds : ℚ := (localCivilSeconds data : ℚ) - tz * 3600
      if ¬(0 ≤ utcSeconds ∧ utcSeconds < (DATETIME_MAX_SECONDS : ℚ)) then .error .overflow
      else
        let dayIdx : ℤ := ⌊utcSeconds / 86400⌋
        let ymd := fromOrdinal (dayIdx.toNat + 1)
        let sod : ℚ := utcSeconds - (dayIdx : ℚ) * 86400
        let h : ℤ := ⌊sod / 3600⌋
        let rem1 : ℚ := sod - (h : ℚ) * 3600
        let mi : ℤ := ⌊rem1 / 60⌋
        let rem2 : ℚ := rem1 - (mi : ℚ) * 60
        let s : ℤ := ⌊rem2⌋
        let utc : BirthData :=
          { year := ymd.1, month := ymd.2.1, day := ymd.2.2,
            hour := (h : ℚ), minute := (mi : ℚ), second := (s : ℚ),
            latitude := data.latitude, longitude := data.longitude }
        .ok (data, utc, tz)

/-- The UTC-converted component of a `sanitize_birth_data` result. -/
def sanitizedUtc (r : Except SanitizeError (BirthData × BirthData × ℚ)) : Option BirthData :=
  match r with
  | .ok (_, utc, _) => some utc
  | .error _ => none

/-! ## services/dasha.py entry points -/

/-- Embedding of `cached_dasha_periods` (memoization is pure caching of this
function and is not modelled).  `datetime(year, month, day)` is represented by
its ordinal day number as a rational. -/
def cached_dasha_periods (birth_year birth_month birth_day : ℕ) (moon_longitude : ℚ)
    (max_level : ℕ) : List DashaPeriod :=
  let birth_date : ℚ := (toOrdinal birth_year birth_month birth_day : ℚ)
  let nakshatra_index : ℕ :=
    (NAKSHATRA_BOUNDARIES.findIdx?
      (fun b => decide (b.1 ≤ moon_longitude) && decide (moon_longitude < b.2))).getD 26
  let nakshatra_deg := moon_longitude - (NAKSHATRA_BOUNDARIES.getD nakshatra_index (0, 0)).1
  let starting_planet := pyListGet NAKSHATRA_TO_PLANET ((((nakshatra_index : ℤ) + 1) % 9) - 1)
  let starting_planet_index := VIMSHOTTARI_PLANETS.indexOf starting_planet
  let remaining_deg := NAKSHATRA_SPAN - nakshatra_deg
  let proportion := remaining_deg / NAKSHATRA_SPAN
  let total_duration := (VIMSHOTTARI_DURATIONS starting_planet : ℚ)
  let balance_years := proportion * total_duration
  let elapsed_years := total_duration - balance_years
  let elapsed_days := elapsed_years * DAYS_PER_YEAR
  let first_mahadasha_start := birth_date - elapsed_days
  generate_dasha_timeline first_mahadasha_start starting_planet_index max_level

/-- Embedding of `calculate_vimshottari_dasha`: an out-of-range `max_level`
is replaced by 2 before computing (0 is in range and kept). -/
def calculate_vimshottari_dasha (b : BirthData) (moon_longitude : ℚ) (max_level : ℤ) :
    List DashaPeriod :=
  let m : ℤ := if max_level < 0 ∨ 5 < max_level then 2 else max_level
  cached_dasha_periods b.year b.month b.day moon_longitude m.toNat

/-- The `dasha_level` validation step of `generate_chart` (services/chart.py):
an out-of-range level is replaced by 5, and the result is what is passed to
`calculate_vimshottari_dasha`. -/
def generateChartDashaLevel (dasha_level : ℤ) : ℤ :=
  if dasha_level < 0 ∨ 5 < dasha_level then 5 else dasha_level

/-! ## Helper lemmas -/

theorem qmod_eq_mul_fract (x : ℚ) {m : ℚ} (hm : m ≠ 0) :
    qmod x m = m * Int.fract (x / m) := by
  unfold qmod Int.fract
  field_simp

theorem qmod_nonneg (x : ℚ) {m : ℚ} (hm : 0 < m) : 0 ≤ qmod x m := by
  rw [qmod_eq_mul_fract x hm.ne.symm]
  exact mul_nonneg hm.le (Int.fract_nonneg _)

theorem qmod_lt (x : ℚ) {m : ℚ} (hm : 0 < m) : qmod x m < m := by
  rw [qmod_eq_mul_fract x hm.ne.symm]
  calc m * Int.fract (x / m) < m * 1 := by
        exact mul_lt_mul_of_pos_left (Int.fract_lt_one _) hm
    _ = m := mul_one m

theorem qmod_add_int_mul (x : ℚ) {m : ℚ} (hm : m ≠ 0) (k : ℤ) :
    qmod (x + m * k) m = qmod x m := by
  unfold qmod
  have hdiv : (x + m * k) / m = x / m + k := by field_simp; ring
  rw [hdiv, Int.floor_add_int]
  push_cast
  ring

theorem qmod_qmod_add (x y : ℚ) : qmod (qmod x 360 + y) 360 = qmod (x + y) 360 := by
  have h : qmod x 360 + y = (x + y) + 360 * (-⌊x / 360⌋ : ℤ) := by
    unfold qmod; push_cast; ring
  rw [h, qmod_add_int_mul _ (by norm_num) _]

theorem qmod_eq_zero_iff (x : ℚ) {m : ℚ} (hm : 0 < m) :
    qmod x m = 0 ↔ ∃ k : ℤ, x = m * k := by
  constructor
  · intro h
    exact ⟨⌊x / m⌋, by unfold qmod at h; linarith⟩
  · rintro ⟨k, rfl⟩
    unfold qmod
    rw [mul_comm m (k : ℚ), mul_div_assoc, div_self hm.ne.symm, mul_one, Int.floor_intCast]
    ring


/-- C5: in every chart computed by `calculate_planet_positions` (used for both
natal and transit charts), Ketu's sidereal longitude is exactly
(Rahu's longitude + 180) mod 360, Ketu is always flagged retrograde and Lagna
never is. -/
theorem c5_ketu_rahu_lagna_invariant (ayanamsa cusp0 mc : ℚ) (trop speed : ℕ → ℚ) :
    ∃ rahu ketu lagna : PlanetData,
      getPlanet (calculate_planet_positions ayanamsa cusp0 mc trop speed) "Rahu" = some rahu ∧
      getPlanet (calculate_planet_positions ayanamsa cusp0 mc trop speed) "Ketu" = some ketu ∧
      getPlanet (calculate_planet_positions ayanamsa cusp0 mc trop speed) "Lagna" = some lagna ∧
      ketu.longitude = qmod (rahu.longitude + 180) 360 ∧
      ketu.retrograde = "yes" ∧ lagna.retrograde = "no" := by
  exact ⟨_, _, _, rfl, rfl, rfl, rfl, rfl, rfl⟩

/-- C6: every body of a computed chart (the 8 queried planets, Ketu derived
from Rahu, the ascendant and the midheaven) has sidereal longitude
(tropical − ayanamsa) mod 360, normalized into [0, 360). -/
theorem c6_sidereal_longitudes_normalized (ayanamsa cusp0 mc : ℚ) (trop speed : ℕ → ℚ) :
    (∀ pr ∈ (calculate_planet_positions ayanamsa cusp0 mc trop speed).planets,
        0 ≤ pr.2.longitude ∧ pr.2.longitude < 360) ∧
    (∀ pid name, (pid, name) ∈ planet_list →
      (getPlanet (calculate_planet_positions ayanamsa cusp0 mc trop speed) name).map
          PlanetData.longitude = some (qmod (trop pid - ayanamsa) 360)) ∧
    (getPlanet (calculate_planet_positions ayanamsa cusp0 mc trop speed) "Ketu").map
        PlanetData.longitude = some (qmod (trop 10 + 180 - ayanamsa) 360) ∧
    (calculate_planet_positions ayanamsa cusp0 mc trop speed).ascendant_longitude
        = qmod (cusp0 - ayanamsa) 360 ∧
    0 ≤ qmod (cusp0 - ayanamsa) 360 ∧ qmod (cusp0 - ayanamsa) 360 < 360 ∧
    (calculate_planet_positions ayanamsa cusp0 mc trop speed).midheaven
        = qmod (mc - ayanamsa) 360 ∧
    0 ≤ qmod (mc - ayanamsa) 360 ∧ qmod (mc - ayanamsa) 360 < 360 := by
  refine ⟨?_, ?_, ?_, rfl, qmod_nonneg _ (by norm_num), qmod_lt _ (by norm_num), rfl,
    qmod_nonneg _ (by norm_num), qmod_lt _ (by norm_num)⟩
  · intro pr hpr
    simp only [calculate_planet_positions, planet_list, List.map, List.cons_append,
      List.nil_append, List.mem_cons, List.not_mem_nil, or_false] at hpr
    rcases hpr with rfl | rfl | rfl | rfl | rfl | rfl | rfl | rfl | rfl | rfl <;>
      exact ⟨qmod_nonneg _ (by norm_num), qmod_lt _ (by norm_num)⟩
  · intro pid name h
    fin_cases h <;> rfl
  · have h1 : qmod (qmod (trop 10 - ayanamsa) 360 + 180) 360
        = qmod (trop 10 + 180 - ayanamsa) 360 := by
      rw [qmod_qmod_add]; congr 1; ring
    rw [← h1]; rfl

/-- Closed instance of C6: the Sun entry of a concrete chart obeys the
longitude formula. -/
theorem c6_witness :
    ((0 : ℕ), "Sun") ∈ planet_list ∧
    (getPlanet (calculate_planet_positions 1 400 (-50) (fun pid => (pid : ℚ)) (fun _ => -1))
        "Sun").map PlanetData.longitude
      = some (qmod ((fun pid => (pid : ℚ)) 0 - 1) 360) :=
  ⟨by decide, (c6_sidereal_longitudes_normalized 1 400 (-50) (fun pid => (pid : ℚ))
      (fun _ => -1)).2.1 0 "Sun" (by decide)⟩

/-- Ranges listed in order: every later range starts at or after the end of
an earlier one (true of both Trimsamsa tables). -/
def RangesOrdered : List (ℚ × ℚ × ℕ) → Prop
  | [] => True
  | a :: l => (∀ b ∈ l, a.2.1 ≤ b.1) ∧ RangesOrdered l

theorem find?_of_ordered {l : List (ℚ × ℚ × ℕ)} {r : ℚ × ℚ × ℕ} {deg : ℚ}
    (hord : RangesOrdered l) (hr : r ∈ l) (h1 : r.1 ≤ deg) (h2 : deg < r.2.1) :
    l.find? (fun r => decide (r.1 ≤ deg) && decide (deg < r.2.1)) = some r := by
  induction l with
  | nil => cases hr
  | cons a l ih =>
    obtain ⟨ha, hl⟩ := hord
    rcases List.mem_cons.mp hr with rfl | hmem
    · rw [List.find?_cons_of_pos]
      simp only [Bool.and_eq_true, decide_eq_true_eq]
      exact ⟨h1, h2⟩
    · rw [List.find?_cons_of_neg]
      · exact ih hl hmem
      · have hab : a.2.1 ≤ r.1 := ha r hmem
        simp only [Bool.and_eq_true, decide_eq_true_eq, not_and]
        intro _ h4
        linarith

theorem odd_ranges_ordered : RangesOrdered odd_ranges := by
  simp only [RangesOrdered, odd_ranges, List.mem_cons, List.not_mem_nil, or_false,
    forall_eq_or_imp, forall_eq]
  norm_num

theorem even_ranges_ordered : RangesOrdered even_ranges := by
  simp only [RangesOrdered, even_ranges, List.mem_cons, List.not_mem_nil, or_false,
    forall_eq_or_imp, forall_eq]
  norm_num

/-- C8: for every planet in the Trimsamsa (D-30) computation the degrees
within its sign are bucketed by the parity table of the sign (five unequal
ranges, each giving its fixed sign), and a degree of exactly 30 maps to the
last range of the applicable table instead of failing. -/
theorem c8_trimsamsa_bucketing (sign : String) (_hs : sign ∈ ZODIAC_SIGNS) (deg : ℚ) :
    (∀ r ∈ trimsamsaRanges sign, r.1 ≤ deg → deg < r.2.1 →
      calculate_trimsamsa_sign sign deg = some (signAt r.2.2)) ∧
    (deg = 30 → calculate_trimsamsa_sign sign deg
      = some (signAt ((trimsamsaRanges sign).getLastD (0, 0, 0)).2.2)) := by
  have hord : RangesOrdered (trimsamsaRanges sign) := by
    unfold trimsamsaRanges
    split
    · exact odd_ranges_ordered
    · exact even_ranges_ordered
  constructor
  · intro r hr h1 h2
    unfold calculate_trimsamsa_sign
    dsimp only
    rw [find?_of_ordered hord hr h1 h2]
  · rintro rfl
    unfold calculate_trimsamsa_sign trimsamsaRanges
    split <;> rfl

/-- Closed instance of C8: 13 degrees in Taurus (an even sign) falls in the
(12, 20) range and maps to Pisces, and 30 degrees in Taurus maps to the
last range of the even table (Aquarius). -/
theorem c8_witness :
    "Taurus" ∈ ZODIAC_SIGNS ∧ ((12 : ℚ), (20 : ℚ), (11 : ℕ)) ∈ trimsamsaRanges "Taurus" ∧
    calculate_trimsamsa_sign "Taurus" 13 = some (signAt 11) ∧
    calculate_trimsamsa_sign "Taurus" 30
      = some (signAt ((trimsamsaRanges "Taurus").getLastD (0, 0, 0)).2.2) :=
  ⟨by decide, by decide,
   (c8_trimsamsa_bucketing "Taurus" (by decide) 13).1 (12, 20, 11) (by decide)
     (by norm_num) (by norm_num),
   (c8_trimsamsa_bucketing "Taurus" (by decide) 30).2 rfl⟩

theorem lookup_mem_values {α β : Type} [BEq α] {l : List (α × β)} {a : α} {b : β}
    (h : l.lookup a = some b) : b ∈ l.map Prod.snd := by
  induction l with
  | nil => simp [List.lookup] at h
  | cons x l ih =>
    obtain ⟨k, v⟩ := x
    rw [List.lookup] at h
    split at h
    · cases h; simp
    · simpa using Or.inr (ih h)

theorem exalt_lookup_bounds {p : String} {si sd : ℕ}
    (h : exaltation_points.lookup p = some (si, sd)) : si ≤ 11 ∧ sd ≤ 28 := by
  have hmem := lookup_mem_values h
  simp only [exaltation_points, List.map, List.mem_cons, List.not_mem_nil, or_false,
    Prod.mk.injEq] at hmem
  rcases hmem with hc | hc | hc | hc | hc | hc | hc | hc | hc <;>
    obtain ⟨rfl, rfl⟩ := hc <;> norm_num

theorem angularDistance_self (a : ℚ) : angularDistance a a = 0 := by
  unfold angularDistance qmod
  norm_num

theorem angularDistance_eq_zero_iff {a b : ℚ} (ha0 : 0 ≤ a) (ha : a < 360)
    (hb0 : 0 ≤ b) (hb : b < 360) : angularDistance a b = 0 ↔ a = b := by
  constructor
  · intro h
    have hz : qmod (a - b) 360 = 0 ∨ qmod (b - a) 360 = 0 := by
      rcases min_eq_iff.mp h with ⟨h1, _⟩ | ⟨h1, _⟩
      · exact Or.inl h1
      · exact Or.inr h1
    have key : ∀ x y : ℚ, 0 ≤ x → x < 360 → 0 ≤ y → y < 360 →
        qmod (x - y) 360 = 0 → x = y := by
      intro x y hx0 hx hy0 hy hq
      obtain ⟨k, hk⟩ := (qmod_eq_zero_iff _ (by norm_num)).mp hq
      have hk1 : (-1 : ℚ) < (k : ℚ) := by nlinarith
      have hk2 : (k : ℚ) < 1 := by nlinarith
      have : k = 0 := by
        have h1 : (-1 : ℤ) < k := by exact_mod_cast hk1
        have h2 : k < (1 : ℤ) := by exact_mod_cast hk2
        omega
      subst this
      push_cast at hk
      linarith
    rcases hz with hq | hq
    · exact key a b ha0 ha hb0 hb hq
    · exact (key b a hb0 hb ha0 ha hq).symm
  · rintro rfl
    exact angularDistance_self a

theorem dignityPointsFor_eq_spec (p s : String) :
    dignityPointsFor p s = dignityPointsSpec p s := by
  unfold dignityPointsFor dignityPointsSpec dignityCategorySpec
  split_ifs <;> rfl

/-- C1: the Saptavargaja component of Sthana Bala is the average over the 7
charts (rasi plus the 6 divisional charts) of per-chart dignity points with
exaltation=30, moolatrikona=25, own=20, great-friend=15, friend=10, neutral=5,
enemy=4, great-enemy=3, the categories being decided by the fixed per-planet
friendship/enmity tables (the serialized output additionally rounds the value
to 3 decimals for display). -/
theorem c1_saptavargaja_average (planet rasi_sign : String) (degrees_in_sign : ℚ)
    (asc_sign hora_sign drekkana_sign saptamsa_sign navamsa_sign dwadasamsa_sign
     trimsamsa_sign : String) :
    (calculate_sthana_for_planet planet rasi_sign degrees_in_sign asc_sign hora_sign
        drekkana_sign saptamsa_sign navamsa_sign dwadasamsa_sign trimsamsa_sign).saptavargaja
      = (([rasi_sign, hora_sign, drekkana_sign, saptamsa_sign, navamsa_sign,
          dwadasamsa_sign, trimsamsa_sign].map (dignityPointsSpec planet)).sum : ℚ) / 7 := by
  unfold calculate_sthana_for_planet
  dsimp only
  rw [show dignityPointsFor planet = dignityPointsSpec planet from
    funext (dignityPointsFor_eq_spec planet)]

/-- C7: for every planet with an exaltation point, the Uchcha Bala component
is 60·(1 − d/180) with d the shorter-arc distance from the exaltation
longitude; it is exactly 60 iff the planet sits on its exaltation longitude
and exactly 0 iff the planet is 180 degrees away. -/
theorem c7_uchcha_bala (planet : String) (si sd : ℕ)
    (hex : exaltation_points.lookup planet = some (si, sd))
    (rasi_sign : String) (hsign : rasi_sign ∈ ZODIAC_SIGNS)
    (degrees_in_sign : ℚ) (hd0 : 0 ≤ degrees_in_sign) (hd1 : degrees_in_sign < 30)
    (asc_sign hora_sign drekkana_sign saptamsa_sign navamsa_sign dwadasamsa_sign
     trimsamsa_sign : String) :
    let planet_long : ℚ := (ZODIAC_SIGNS.indexOf rasi_sign : ℚ) * 30 + degrees_in_sign
    let exalt_long : ℚ := (si : ℚ) * 30 + (sd : ℚ)
    let sb := calculate_sthana_for_planet planet rasi_sign degrees_in_sign asc_sign
      hora_sign drekkana_sign saptamsa_sign navamsa_sign dwadasamsa_sign trimsamsa_sign
    sb.uchcha = 60 * (1 - angularDistance planet_long exalt_long / 180) ∧
    (sb.uchcha = 60 ↔ planet_long = exalt_long) ∧
    (sb.uchcha = 0 ↔ angularDistance planet_long exalt_long = 180) := by
  intro planet_long exalt_long sb
  have hidx : ZODIAC_SIGNS.indexOf rasi_sign < 12 := by
    have := List.indexOf_lt_length.mpr hsign
    simpa [ZODIAC_SIGNS] using this
  have hpl0 : 0 ≤ planet_long := by
    have : (0 : ℚ) ≤ (ZODIAC_SIGNS.indexOf rasi_sign : ℚ) := by positivity
    show (0 : ℚ) ≤ (ZODIAC_SIGNS.indexOf rasi_sign : ℚ) * 30 + degrees_in_sign
    linarith
  have hpl1 : planet_long < 360 := by
    have : (ZODIAC_SIGNS.indexOf rasi_sign : ℚ) ≤ 11 := by
      exact_mod_cast Nat.le_of_lt_succ hidx
    show (ZODIAC_SIGNS.indexOf rasi_sign : ℚ) * 30 + degrees_in_sign < 360
    linarith
  have hel0 : 0 ≤ exalt_long := by positivity
  have hel1 : exalt_long < 360 := by
    obtain ⟨h1, h2⟩ := exalt_lookup_bounds hex
    have h1q : (si : ℚ) ≤ 11 := by exact_mod_cast h1
    have h2q : (sd : ℚ) ≤ 28 := by exact_mod_cast h2
    show (si : ℚ) * 30 + (sd : ℚ) < 360
    linarith
  have huc : sb.uchcha = 60 * (1 - angularDistance planet_long exalt_long / 180) := by
    show (calculate_sthana_for_planet planet rasi_sign degrees_in_sign asc_sign
      hora_sign drekkana_sign saptamsa_sign navamsa_sign dwadasamsa_sign
      trimsamsa_sign).uchcha = 60 * (1 - angularDistance planet_long exalt_long / 180)
    unfold calculate_sthana_for_planet
    dsimp only
    rw [hex]
  refine ⟨huc, ?_, ?_⟩
  · rw [huc, ← angularDistance_eq_zero_iff hpl0 hpl1 hel0 hel1]
    constructor <;> intro h <;> linarith
  · rw [huc]
    constructor <;> intro h <;> linarith

/-- Closed instance of C7: the Sun at 10 degrees Aries sits on its exaltation
point and its Uchcha Bala is exactly 60 shashtiamshas. -/
theorem c7_witness :
    exaltation_points.lookup "Sun" = some (0, 10) ∧
    (calculate_sthana_for_planet "Sun" "Aries" 10 "Leo" "Leo" "Leo" "Leo" "Leo" "Leo"
        "Leo").uchcha = 60 := by
  have h := c7_uchcha_bala "Sun" 0 10 rfl "Aries" (by decide) 10 (by norm_num) (by norm_num)
    "Leo" "Leo" "Leo" "Leo" "Leo" "Leo" "Leo"
  exact ⟨rfl, h.2.1.mpr (by norm_num [ZODIAC_SIGNS])⟩

theorem calculate_dasha_period_planet (p : String) (s e : ℚ) (i l m : ℕ) :
    (calculate_dasha_period p s e i l m).planet = p := by
  rw [calculate_dasha_period]
  split <;> rfl

theorem calculate_dasha_period_start (p : String) (s e : ℚ) (i l m : ℕ) :
    (calculate_dasha_period p s e i l m).start = s := by
  rw [calculate_dasha_period]
  split <;> rfl

theorem calculate_dasha_period_stop (p : String) (s e : ℚ) (i l m : ℕ) :
    (calculate_dasha_period p s e i l m).stop = e := by
  rw [calculate_dasha_period]
  split <;> rfl

theorem calculate_dasha_period_subs_leaf (p : String) (s e : ℚ) (i l m : ℕ)
    (h : l ≥ m ∨ m = 0) : (calculate_dasha_period p s e i l m).subs = [] := by
  rw [calculate_dasha_period, if_pos h]
  rfl

theorem calculate_dasha_period_subs_node (p : String) (s e : ℚ) (i l m : ℕ)
    (h : l < m) :
    (calculate_dasha_period p s e i l m).subs
      = dashaSubsGo (fun q a b j => calculate_dasha_period q a b j (l + 1) m)
          ((e - s) / (1461 / 4 : ℚ)) i 0 9 s := by
  rw [calculate_dasha_period, if_neg (by omega)]
  rfl

theorem dashaSubsGo_length (mkSub : String → ℚ → ℚ → ℕ → DashaPeriod) (dy : ℚ) (idx : ℕ) :
    ∀ (k i : ℕ) (s0 : ℚ), (dashaSubsGo mkSub dy idx i k s0).length = k := by
  intro k
  induction k with
  | zero => intro i s0; rfl
  | succ k ih => intro i s0; simp [dashaSubsGo, ih]

theorem dashaSubsGo_map_planet (mkSub : String → ℚ → ℚ → ℕ → DashaPeriod) (dy : ℚ)
    (idx : ℕ) (hp : ∀ q a b j, (mkSub q a b j).planet = q) :
    ∀ (k i : ℕ) (s0 : ℚ),
      (dashaSubsGo mkSub dy idx i k s0).map DashaPeriod.planet
        = (List.range k).map (fun j => planetAt ((idx + (i + j)) % 9)) := by
  intro k
  induction k with
  | zero => intro i s0; rfl
  | succ k ih =>
    intro i s0
    rw [List.range_succ_eq_map]
    simp only [dashaSubsGo, List.map_cons, List.map_map, hp, ih (i + 1)]
    congr 1
    apply List.map_congr_left
    intro a _
    simp only [Function.comp, Nat.succ_eq_add_one]
    have hn : i + 1 + a = i + (a + 1) := by omega
    rw [hn]

theorem dashaSubsGo_map_duration (mkSub : String → ℚ → ℚ → ℕ → DashaPeriod) (dy : ℚ)
    (idx : ℕ) (hs : ∀ q a b j, (mkSub q a b j).start = a)
    (he : ∀ q a b j, (mkSub q a b j).stop = b) :
    ∀ (k i : ℕ) (s0 : ℚ),
      (dashaSubsGo mkSub dy idx i k s0).map (fun c => c.stop - c.start)
        = (List.range k).map (fun j =>
            dy * (VIMSHOTTARI_DURATIONS (planetAt ((idx + (i + j)) % 9)) : ℚ) / 120
              * (1461 / 4 : ℚ)) := by
  intro k
  induction k with
  | zero => intro i s0; rfl
  | succ k ih =>
    intro i s0
    rw [List.range_succ_eq_map]
    simp only [dashaSubsGo, List.map_cons, List.map_map, hs, he, ih (i + 1)]
    congr 1
    · simp only [Nat.add_zero]
      ring
    · apply List.map_congr_left
      intro a _
      simp only [Function.comp, Nat.succ_eq_add_one]
      have hn : i + 1 + a = i + (a + 1) := by omega
      rw [hn]

theorem list_sum_map_mul (c : ℚ) (l : List ℕ) (f : ℕ → ℚ) :
    (l.map (fun x => c * f x)).sum = c * (l.map f).sum := by
  induction l with
  | nil => simp
  | cons x l ih => simp [ih]; ring

theorem sum_durations_cycle (idx : ℕ) :
    ((List.range 9).map (fun j => VIMSHOTTARI_DURATIONS (planetAt ((idx + j) % 9)))).sum
      = 120 := by
  have hcongr : (List.range 9).map (fun j => VIMSHOTTARI_DURATIONS (planetAt ((idx + j) % 9)))
      = (List.range 9).map (fun j => VIMSHOTTARI_DURATIONS (planetAt ((idx % 9 + j) % 9))) := by
    apply List.map_congr_left
    intro a _
    congr 2
    omega
  rw [hcongr]
  have h9 : idx % 9 < 9 := Nat.mod_lt _ (by norm_num)
  set r := idx % 9 with hr
  clear_value r
  interval_cases r <;> rfl

/-- C2: every dasha period expanded below the requested maximum depth has
exactly 9 children; the i-th child's lord is the (parent index + i) mod 9
entry of the fixed Vimshottari sequence (so the first child's lord is the
parent's own lord); each child's duration is parent duration × child planet
years / 120; and the 9 children's durations sum exactly to the parent's
duration. -/
theorem c2_subperiod_structure (planet : String) (s e : ℚ) (idx level max_level : ℕ)
    (hlv : level < max_level) (hidx : idx < 9) (hp : planet = planetAt idx) :
    (calculate_dasha_period planet s e idx level max_level).subs.length = 9 ∧
    (calculate_dasha_period planet s e idx level max_level).subs.map DashaPeriod.planet
      = (List.range 9).map (fun i => planetAt ((idx + i) % 9)) ∧
    ((calculate_dasha_period planet s e idx level max_level).subs.map
        DashaPeriod.planet).head? = some planet ∧
    (calculate_dasha_period planet s e idx level max_level).subs.map
        (fun c => c.stop - c.start)
      = (List.range 9).map (fun i =>
          (e - s) * (VIMSHOTTARI_DURATIONS (planetAt ((idx + i) % 9)) : ℚ) / 120) ∧
    ((calculate_dasha_period planet s e idx level max_level).subs.map
        (fun c => c.stop - c.start)).sum = e - s := by
  have hnode := calculate_dasha_period_subs_node planet s e idx level max_level hlv
  have hp' : ∀ (q : String) (a b : ℚ) (j : ℕ),
      ((fun q a b j => calculate_dasha_period q a b j (level + 1) max_level) q a b j).planet
        = q := fun q a b j => calculate_dasha_period_planet q a b j (level + 1) max_level
  have hs' : ∀ (q : String) (a b : ℚ) (j : ℕ),
      ((fun q a b j => calculate_dasha_period q a b j (level + 1) max_level) q a b j).start
        = a := fun q a b j => calculate_dasha_period_start q a b j (level + 1) max_level
  have he' : ∀ (q : String) (a b : ℚ) (j : ℕ),
      ((fun q a b j => calculate_dasha_period q a b j (level + 1) max_level) q a b j).stop
        = b := fun q a b j => calculate_dasha_period_stop q a b j (level + 1) max_level
  have hmp := dashaSubsGo_map_planet _ ((e - s) / (1461 / 4 : ℚ)) idx hp' 9 0 s
  simp only [Nat.zero_add] at hmp
  have hmd := dashaSubsGo_map_duration _ ((e - s) / (1461 / 4 : ℚ)) idx hs' he' 9 0 s
  simp only [Nat.zero_add] at hmd
  have hmd2 : (calculate_dasha_period planet s e idx level max_level).subs.map
      (fun c => c.stop - c.start)
      = (List.range 9).map (fun i =>
          (e - s) * (VIMSHOTTARI_DURATIONS (planetAt ((idx + i) % 9)) : ℚ) / 120) := by
    rw [hnode, hmd]
    apply List.map_congr_left
    intro a _
    ring
  have hmp2 : (calculate_dasha_period planet s e idx level max_level).subs.map
      DashaPeriod.planet
      = (List.range 9).map (fun i => planetAt ((idx + i) % 9)) := by
    rw [hnode, hmp]
  refine ⟨?_, hmp2, ?_, hmd2, ?_⟩
  · rw [hnode]
    exact dashaSubsGo_length _ _ _ 9 0 s
  · rw [hmp2]
    have h0 : ((List.range 9).map (fun i => planetAt ((idx + i) % 9))).head?
        = some (planetAt ((idx + 0) % 9)) := rfl
    rw [h0, Nat.add_zero, Nat.mod_eq_of_lt hidx, hp]
  · rw [hmd2]
    have hterms : (List.range 9).map (fun i =>
          (e - s) * (VIMSHOTTARI_DURATIONS (planetAt ((idx + i) % 9)) : ℚ) / 120)
        = (List.range 9).map (fun i =>
          ((e - s) / 120) * (VIMSHOTTARI_DURATIONS (planetAt ((idx + i) % 9)) : ℚ)) := by
      apply List.map_congr_left
      intro a _
      ring
    rw [hterms, list_sum_map_mul]
    have hcast : ((List.range 9).map (fun i =>
          (VIMSHOTTARI_DURATIONS (planetAt ((idx + i) % 9)) : ℚ))).sum
        = ((120 : ℕ) : ℚ) := by
      rw [show (List.range 9).map (fun i =>
            (VIMSHOTTARI_DURATIONS (planetAt ((idx + i) % 9)) : ℚ))
          = ((List.range 9).map (fun i =>
            VIMSHOTTARI_DURATIONS (planetAt ((idx + i) % 9)))).map (Nat.cast) from
        (List.map_map _ _ _).symm]
      rw [← Nat.cast_list_sum, sum_durations_cycle]
    rw [hcast]
    push_cast
    ring

/-- Closed instance of C2: the nine children of a level-0 period of lord Ketu
and duration 10 days sum to exactly that duration. -/
theorem c2_witness :
    (0 : ℕ) < 1 ∧ (0 : ℕ) < 9 ∧ "Ketu" = planetAt 0 ∧
    ((calculate_dasha_period "Ketu" 0 10 0 0 1).subs.map
        (fun c => c.stop - c.start)).sum = 10 - 0 :=
  ⟨by norm_num, by norm_num, rfl,
   (c2_subperiod_structure "Ketu" 0 10 0 0 1 (by norm_num) (by norm_num) rfl).2.2.2.2⟩

theorem planet_duration_pos (k : ℕ) (hk : k < 9) :
    6 ≤ VIMSHOTTARI_DURATIONS (planetAt k) := by
  interval_cases k <;> decide

theorem genLoop_exact (L : ℕ) : ∀ (n fuel k : ℕ) (s : ℚ), n ≤ fuel → k < 9 →
    (genLoop L fuel
        (((List.range n).map (fun i => VIMSHOTTARI_DURATIONS (planetAt ((k + i) % 9)))).sum)
        s k).map DashaPeriod.planet
      = (List.range n).map (fun i => planetAt ((k + i) % 9)) ∧
    (genLoop L fuel
        (((List.range n).map (fun i => VIMSHOTTARI_DURATIONS (planetAt ((k + i) % 9)))).sum)
        s k).map (fun p => (p.stop - p.start) / (1461 / 4 : ℚ))
      = (List.range n).map (fun i =>
          (VIMSHOTTARI_DURATIONS (planetAt ((k + i) % 9)) : ℚ)) := by
  intro n
  induction n with
  | zero =>
    intro fuel k s _ _
    cases fuel <;> simp [genLoop]
  | succ n ih =>
    intro fuel k s hfuel hk
    cases fuel with
    | zero => omega
    | succ fuel =>
      have hsplit : ((List.range (n + 1)).map
            (fun i => VIMSHOTTARI_DURATIONS (planetAt ((k + i) % 9)))).sum
          = VIMSHOTTARI_DURATIONS (planetAt k)
            + ((List.range n).map
                (fun i => VIMSHOTTARI_DURATIONS (planetAt (((k + 1) % 9 + i) % 9)))).sum := by
        rw [List.range_succ_eq_map]
        simp only [List.map_cons, List.sum_cons, List.map_map]
        congr 1
        · rw [Nat.add_zero, Nat.mod_eq_of_lt hk]
        · apply congrArg
          apply List.map_congr_left
          intro a _
          simp only [Function.comp, Nat.succ_eq_add_one]
          congr 2
          omega
      set rest := ((List.range n).map
          (fun i => VIMSHOTTARI_DURATIONS (planetAt (((k + 1) % 9 + i) % 9)))).sum with hrest
      have hne : VIMSHOTTARI_DURATIONS (planetAt k) + rest ≠ 0 := by
        have := planet_duration_pos k hk
        omega
      have hmin : min (VIMSHOTTARI_DURATIONS (planetAt k))
          (VIMSHOTTARI_DURATIONS (planetAt k) + rest) = VIMSHOTTARI_DURATIONS (planetAt k) :=
        min_eq_left (Nat.le_add_right _ _)
      have hgen : genLoop L (fuel + 1) (VIMSHOTTARI_DURATIONS (planetAt k) + rest) s k
          = calculate_dasha_period (planetAt k) s
              (s + (VIMSHOTTARI_DURATIONS (planetAt k) : ℚ) * (1461 / 4 : ℚ)) k 0 L ::
            genLoop L fuel rest
              (s + (VIMSHOTTARI_DURATIONS (planetAt k) : ℚ) * (1461 / 4 : ℚ)) ((k + 1) % 9) := by
        rw [genLoop, if_neg hne]
        simp only [hmin]
        congr 2
        omega
      have hk1 : (k + 1) % 9 < 9 := Nat.mod_lt _ (by norm_num)
      have ihn := ih fuel ((k + 1) % 9)
        (s + (VIMSHOTTARI_DURATIONS (planetAt k) : ℚ) * (1461 / 4 : ℚ)) (by omega) hk1
      have htail : ∀ {α : Type} (g : ℕ → α),
          (List.range n).map (fun i => g (((k + 1) % 9 + i) % 9))
            = (List.range n).map (fun i => g ((k + (i + 1)) % 9)) := by
        intro α g
        apply List.map_congr_left
        intro a _
        congr 1
        omega
      constructor
      · rw [hsplit, hgen]
        simp only [List.map_cons, calculate_dasha_period_planet]
        rw [List.range_succ_eq_map]
        simp only [List.map_cons, List.map_map]
        congr 1
        · rw [Nat.add_zero, Nat.mod_eq_of_lt hk]
        · rw [ihn.1, htail (fun j => planetAt j)]
          apply List.map_congr_left
          intro a _
          simp only [Function.comp, Nat.succ_eq_add_one]
      · rw [hsplit, hgen]
        simp only [List.map_cons, calculate_dasha_period_start, calculate_dasha_period_stop]
        rw [List.range_succ_eq_map]
        simp only [List.map_cons, List.map_map]
        congr 1
        · rw [Nat.add_zero, Nat.mod_eq_of_lt hk]
          ring
        · rw [ihn.2, htail (fun j => (VIMSHOTTARI_DURATIONS (planetAt j) : ℚ))]
          apply List.map_congr_left
          intro a _
          simp only [Function.comp, Nat.succ_eq_add_one]

theorem generate_timeline_cycle (k : ℕ) (hk : k < 9) (s : ℚ) (L : ℕ) :
    (generate_dasha_timeline s k L).map DashaPeriod.planet
        = (List.range 9).map (fun i => planetAt ((k + i) % 9)) ∧
    (generate_dasha_timeline s k L).map (fun p => (p.stop - p.start) / (1461 / 4 : ℚ))
        = (List.range 9).map (fun i =>
            (VIMSHOTTARI_DURATIONS (planetAt ((k + i) % 9)) : ℚ)) := by
  have h := genLoop_exact L 9 120 k s (by norm_num) hk
  rw [sum_durations_cycle k] at h
  unfold generate_dasha_timeline
  exact h

theorem starting_planet_mem (n : ℕ) :
    pyListGet NAKSHATRA_TO_PLANET ((((n : ℤ) + 1) % 9) - 1) ∈ VIMSHOTTARI_PLANETS := by
  have h0 : 0 ≤ ((n : ℤ) + 1) % 9 := Int.emod_nonneg _ (by norm_num)
  have h9 : ((n : ℤ) + 1) % 9 < 9 := Int.emod_lt_of_pos _ (by norm_num)
  have key : ∀ j : ℤ, 0 ≤ j → j < 9 →
      pyListGet NAKSHATRA_TO_PLANET (j - 1) ∈ VIMSHOTTARI_PLANETS := by
    intro j hj0 hj9
    interval_cases j <;> decide
  exact key _ h0 h9

theorem indexOf_planet_lt_nine {p : String} (hp : p ∈ VIMSHOTTARI_PLANETS) :
    VIMSHOTTARI_PLANETS.indexOf p < 9 := by
  have := List.indexOf_lt_length.mpr hp
  simpa [VIMSHOTTARI_PLANETS] using this

theorem cached_eq_generate (byr bmo bdy : ℕ) (ml : ℚ) (L : ℕ) :
    ∃ (s : ℚ) (k : ℕ), k < 9 ∧
      cached_dasha_periods byr bmo bdy ml L = generate_dasha_timeline s k L := by
  refine ⟨_, _, ?_, rfl⟩
  exact indexOf_planet_lt_nine (starting_planet_mem _)

theorem sum_cast_durations_cycle (k : ℕ) :
    ((List.range 9).map (fun i =>
        (VIMSHOTTARI_DURATIONS (planetAt ((k + i) % 9)) : ℚ))).sum = 120 := by
  rw [show (List.range 9).map (fun i =>
        (VIMSHOTTARI_DURATIONS (planetAt ((k + i) % 9)) : ℚ))
      = ((List.range 9).map (fun i =>
          VIMSHOTTARI_DURATIONS (planetAt ((k + i) % 9)))).map (Nat.cast) from
    (List.map_map _ _ _).symm]
  rw [← Nat.cast_list_sum, sum_durations_cycle]
  norm_num

/-- C3: every generated top-level Mahadasha timeline consists of 9 successive
periods cycling through the fixed Vimshottari sequence from the starting
lord's index, each with its planet's full fixed duration (the clamp to the
remaining total never cuts a period short), and the durations in years under
the 365.25-day year sum to exactly 120. -/
theorem c3_timeline_120_years (byr bmo bdy : ℕ) (ml : ℚ) (L : ℕ) :
    ((cached_dasha_periods byr bmo bdy ml L).map
        (fun p => (p.stop - p.start) / (1461 / 4 : ℚ))).sum = 120 ∧
    ∃ k, k < 9 ∧
      (cached_dasha_periods byr bmo bdy ml L).map DashaPeriod.planet
        = (List.range 9).map (fun i => planetAt ((k + i) % 9)) ∧
      (cached_dasha_periods byr bmo bdy ml L).map
          (fun p => (p.stop - p.start) / (1461 / 4 : ℚ))
        = (List.range 9).map (fun i =>
            (VIMSHOTTARI_DURATIONS (planetAt ((k + i) % 9)) : ℚ)) := by
  obtain ⟨s, k, hk, heq⟩ := cached_eq_generate byr bmo bdy ml L
  obtain ⟨h1, h2⟩ := generate_timeline_cycle k hk s L
  rw [heq]
  exact ⟨by rw [h2]; exact sum_cast_durations_cycle k, k, hk, h1, h2⟩

theorem genLoop_level_zero (fuel : ℕ) :
    ∀ (rem : ℕ) (s : ℚ) (k : ℕ), ∀ p ∈ genLoop 0 fuel rem s k, p.subs = [] := by
  induction fuel with
  | zero => intro rem s k p hp; cases hp
  | succ fuel ih =>
    intro rem s k p hp
    rw [genLoop] at hp
    split at hp
    · cases hp
    · rcases List.mem_cons.mp hp with rfl | hmem
      · exact calculate_dasha_period_subs_leaf _ _ _ _ _ _ (Or.inr rfl)
      · exact ih _ _ _ p hmem

/-- C4 amended: at `calculate_vimshottari_dasha` a depth outside [0, 5] is
replaced by 2, while depth 0 is kept and produces a Mahadasha-only timeline
(no child periods); at `generate_chart` an out-of-range depth is replaced by
5, not 2. -/
theorem c4_amended_depth_defaults (b : BirthData) (ml : ℚ) :
    (∀ m : ℤ, m < 0 ∨ 5 < m →
      calculate_vimshottari_dasha b ml m = calculate_vimshottari_dasha b ml 2 ∧
      generateChartDashaLevel m = 5) ∧
    (∀ p ∈ calculate_vimshottari_dasha b ml 0, p.subs = []) := by
  constructor
  · intro m hm
    constructor
    · unfold calculate_vimshottari_dasha
      rw [if_pos hm, if_neg (by norm_num)]
    · unfold generateChartDashaLevel
      rw [if_pos hm]
  · intro p hp
    have h0 : calculate_vimshottari_dasha b ml 0
        = cached_dasha_periods b.year b.month b.day ml 0 := by
      unfold calculate_vimshottari_dasha
      rw [if_neg (by norm_num)]
      rfl
    rw [h0] at hp
    obtain ⟨s, k, hk, heq⟩ := cached_eq_generate b.year b.month b.day ml 0
    rw [heq] at hp
    exact genLoop_level_zero _ _ _ _ p hp

/-- C4 counterexample: at the `generate_chart` entry point a requested depth
of 6 (outside [0, 5]) is replaced by 5, not 2. -/
theorem c4_counterexample :
    generateChartDashaLevel 6 = 5 ∧ generateChartDashaLevel 6 ≠ 2 := by
  decide

/-- Closed instance of the amended C4 at depth 7. -/
theorem c4_witness :
    ((7 : ℤ) < 0 ∨ (5 : ℤ) < 7) ∧
    calculate_vimshottari_dasha ⟨2000, 1, 1, 0, 0, 0, 0, 0⟩ 5 7
      = calculate_vimshottari_dasha ⟨2000, 1, 1, 0, 0, 0, 0, 0⟩ 5 2 ∧
    generateChartDashaLevel 7 = 5 :=
  ⟨by norm_num,
   ((c4_amended_depth_defaults ⟨2000, 1, 1, 0, 0, 0, 0, 0⟩ 5).1 7 (by norm_num)).1,
   ((c4_amended_depth_defaults ⟨2000, 1, 1, 0, 0, 0, 0, 0⟩ 5).1 7 (by norm_num)).2⟩

theorem isLeap_iff (y : ℕ) :
    isLeap y = true ↔ (y % 4 = 0 ∧ (y % 100 ≠ 0 ∨ y % 400 = 0)) := by
  simp [isLeap]

set_option maxHeartbeats 1600000 in
theorem daysBeforeYear_succ {y : ℕ} (hy : 1 ≤ y) :
    daysBeforeYear (y + 1) = daysBeforeYear y + (if isLeap y then 366 else 365) := by
  obtain ⟨z, rfl⟩ : ∃ z, y = z + 1 := ⟨y - 1, by omega⟩
  by_cases hl : isLeap (z + 1) = true
  · rw [if_pos hl]
    rw [isLeap_iff] at hl
    unfold daysBeforeYear
    simp only [Nat.add_sub_cancel]
    omega
  · rw [if_neg hl]
    rw [isLeap_iff] at hl
    unfold daysBeforeYear
    simp only [Nat.add_sub_cancel]
    omega

theorem daysBeforeYear_mono {a b : ℕ} (h : a ≤ b) :
    daysBeforeYear a ≤ daysBeforeYear b := by
  unfold daysBeforeYear
  have h4 : (a - 1) / 4 ≤ (b - 1) / 4 := Nat.div_le_div_right (by omega)
  have h100 : (a - 1) / 100 ≤ (b - 1) / 100 := Nat.div_le_div_right (by omega)
  have h400 : (a - 1) / 400 ≤ (b - 1) / 400 := Nat.div_le_div_right (by omega)
  omega

theorem daysBeforeMonth_succ (y m : ℕ) (hm : 1 ≤ m) :
    daysBeforeMonth y (m + 1) = daysBeforeMonth y m + daysInMonth y m := by
  obtain ⟨z, rfl⟩ : ∃ z, m = z + 1 := ⟨m - 1, by omega⟩
  rfl

theorem daysBeforeMonth_le_succ (y m : ℕ) :
    daysBeforeMonth y m ≤ daysBeforeMonth y (m + 1) := by
  cases m with
  | zero => exact Nat.zero_le _
  | succ z => exact Nat.le_add_right _ _

theorem daysBeforeMonth_mono (y : ℕ) {m1 m2 : ℕ} (h : m1 ≤ m2) :
    daysBeforeMonth y m1 ≤ daysBeforeMonth y m2 := by
  induction m2 with
  | zero =>
    have h0 : m1 = 0 := by omega
    subst h0
    exact le_rfl
  | succ z ih =>
    rcases Nat.lt_or_ge m1 (z + 1) with hlt | hge
    · exact le_trans (ih (by omega)) (daysBeforeMonth_le_succ y z)
    · have : m1 = z + 1 := by omega
      subst this
      rfl

theorem daysInMonth_13 (y : ℕ) : daysInMonth y 13 = 0 := by
  norm_num [daysInMonth]

theorem daysBeforeMonth_13 (y : ℕ) :
    daysBeforeMonth y 13 = if isLeap y then 366 else 365 := by
  rw [show (13 : ℕ) = 12 + 1 from rfl, daysBeforeMonth_succ _ _ (by norm_num)]
  rw [show (12 : ℕ) = 11 + 1 from rfl, daysBeforeMonth_succ _ _ (by norm_num)]
  rw [show (11 : ℕ) = 10 + 1 from rfl, daysBeforeMonth_succ _ _ (by norm_num)]
  rw [show (10 : ℕ) = 9 + 1 from rfl, daysBeforeMonth_succ _ _ (by norm_num)]
  rw [show (9 : ℕ) = 8 + 1 from rfl, daysBeforeMonth_succ _ _ (by norm_num)]
  rw [show (8 : ℕ) = 7 + 1 from rfl, daysBeforeMonth_succ _ _ (by norm_num)]
  rw [show (7 : ℕ) = 6 + 1 from rfl, daysBeforeMonth_succ _ _ (by norm_num)]
  rw [show (6 : ℕ) = 5 + 1 from rfl, daysBeforeMonth_succ _ _ (by norm_num)]
  rw [show (5 : ℕ) = 4 + 1 from rfl, daysBeforeMonth_succ _ _ (by norm_num)]
  rw [show (4 : ℕ) = 3 + 1 from rfl, daysBeforeMonth_succ _ _ (by norm_num)]
  rw [show (3 : ℕ) = 2 + 1 from rfl, daysBeforeMonth_succ _ _ (by norm_num)]
  rw [show (2 : ℕ) = 1 + 1 from rfl, daysBeforeMonth_succ _ _ (by norm_num)]
  rw [show daysBeforeMonth y 1 = 0 from rfl]
  norm_num [daysInMonth]
  cases isLeap y <;> norm_num

theorem findYear_bracket : ∀ (fuel y n : ℕ), 1 ≤ y → daysBeforeYear y < n →
    n ≤ daysBeforeYear (y + fuel + 1) →
    1 ≤ findYear fuel y n ∧ y ≤ findYear fuel y n ∧
    daysBeforeYear (findYear fuel y n) < n ∧
    n ≤ daysBeforeYear (findYear fuel y n + 1) := by
  intro fuel
  induction fuel with
  | zero =>
    intro y n hy h1 h2
    rw [findYear]
    exact ⟨hy, le_rfl, h1, by simpa using h2⟩
  | succ fuel ih =>
    intro y n hy h1 h2
    rw [findYear]
    split
    · exact ⟨hy, le_rfl, h1, by assumption⟩
    · rename_i hcond
      push_neg at hcond
      have h2x : n ≤ daysBeforeYear (y + 1 + fuel + 1) := by
        have he : y + 1 + fuel + 1 = y + (fuel + 1) + 1 := by omega
        rw [he]
        exact h2
      obtain ⟨a, b, c, d⟩ := ih (y + 1) n (by omega) hcond h2x
      exact ⟨a, by omega, c, d⟩

theorem findMonth_bracket (y : ℕ) : ∀ (fuel m rem : ℕ), 1 ≤ m →
    daysBeforeMonth y m < rem → rem ≤ daysBeforeMonth y (m + fuel + 1) →
    1 ≤ findMonth y fuel m rem ∧ m ≤ findMonth y fuel m rem ∧
    daysBeforeMonth y (findMonth y fuel m rem) < rem ∧
    rem ≤ daysBeforeMonth y (findMonth y fuel m rem + 1) := by
  intro fuel
  induction fuel with
  | zero =>
    intro m rem hm h1 h2
    rw [findMonth]
    exact ⟨hm, le_rfl, h1, by simpa using h2⟩
  | succ fuel ih =>
    intro m rem hm h1 h2
    rw [findMonth]
    split
    · exact ⟨hm, le_rfl, h1, by assumption⟩
    · rename_i hcond
      push_neg at hcond
      have h2x : rem ≤ daysBeforeMonth y (m + 1 + fuel + 1) := by
        have he : m + 1 + fuel + 1 = m + (fuel + 1) + 1 := by omega
        rw [he]
        exact h2
      obtain ⟨a, b, c, d⟩ := ih (m + 1) rem (by omega) hcond h2x
      exact ⟨a, by omega, c, d⟩

theorem fromOrdinal_spec (n : ℕ) (h1 : 1 ≤ n) (h2 : n ≤ daysBeforeYear 10000) :
    1 ≤ (fromOrdinal n).1 ∧ (fromOrdinal n).1 ≤ 9999 ∧
    1 ≤ (fromOrdinal n).2.1 ∧ (fromOrdinal n).2.1 ≤ 12 ∧
    1 ≤ (fromOrdinal n).2.2 ∧
    (fromOrdinal n).2.2 ≤ daysInMonth (fromOrdinal n).1 (fromOrdinal n).2.1 ∧
    toOrdinal (fromOrdinal n).1 (fromOrdinal n).2.1 (fromOrdinal n).2.2 = n := by
  have hy0 : daysBeforeYear 1 < n := by
    have : daysBeforeYear 1 = 0 := rfl
    omega
  have hyub : n ≤ daysBeforeYear (1 + 10000 + 1) :=
    le_trans h2 (daysBeforeYear_mono (by norm_num))
  obtain ⟨hy1, _, hylt, hyn⟩ := findYear_bracket 10000 1 n (by norm_num) hy0 hyub
  set y := findYear 10000 1 n with hydef
  have hy9999 : y ≤ 9999 := by
    by_contra hgt
    push_neg at hgt
    have : daysBeforeYear 10000 ≤ daysBeforeYear y := daysBeforeYear_mono (by omega)
    omega
  set rem := n - daysBeforeYear y with hremdef
  have hrem1 : 1 ≤ rem := by omega
  have hremub : rem ≤ daysBeforeMonth y 13 := by
    rw [daysBeforeMonth_13]
    have := daysBeforeYear_succ hy1
    omega
  have hm0 : daysBeforeMonth y 1 < rem := by
    have : daysBeforeMonth y 1 = 0 := rfl
    omega
  have hmub : rem ≤ daysBeforeMonth y (1 + 12 + 1) := by
    have h14 : daysBeforeMonth y 14 = daysBeforeMonth y 13 := by
      rw [show (14 : ℕ) = 13 + 1 from rfl, daysBeforeMonth_succ _ _ (by norm_num),
        daysInMonth_13]
      omega
    simpa [h14] using hremub
  obtain ⟨hm1, _, hmlt, hmn⟩ := findMonth_bracket y 12 1 rem (by norm_num) hm0 hmub
  set m := findMonth y 12 1 rem with hmdef
  have hm12 : m ≤ 12 := by
    by_contra hgt
    push_neg at hgt
    have : daysBeforeMonth y 13 ≤ daysBeforeMonth y m := daysBeforeMonth_mono y (by omega)
    omega
  have hsucc : daysBeforeMonth y (m + 1) = daysBeforeMonth y m + daysInMonth y m :=
    daysBeforeMonth_succ y m hm1
  have hout : fromOrdinal n = (y, m, rem - daysBeforeMonth y m) := by
    rw [fromOrdinal]
  rw [hout]
  dsimp only
  refine ⟨hy1, hy9999, hm1, hm12, by omega, by omega, ?_⟩
  unfold toOrdinal
  omega

theorem pyInt_of_nonneg {q : ℚ} (h0 : 0 ≤ q) : pyInt q = ⌊q⌋ := by
  unfold pyInt
  rw [if_neg (not_lt.mpr h0)]

theorem pyInt_nonneg {q : ℚ} (h0 : 0 ≤ q) : 0 ≤ pyInt q := by
  rw [pyInt_of_nonneg h0]
  exact Int.le_floor.mpr (by exact_mod_cast h0)

theorem pyInt_lt {q : ℚ} {c : ℤ} (h0 : 0 ≤ q) (h1 : q < (c : ℚ)) : pyInt q < c := by
  rw [pyInt_of_nonneg h0]
  exact Int.floor_lt.mpr h1

theorem daysBeforeYear_10000 : daysBeforeYear 10000 = 3652059 := by decide

theorem DATETIME_MAX_SECONDS_eq : DATETIME_MAX_SECONDS = 3652059 * 86400 := by decide

/-- C9 corrected: under valid birth data the normalizer raises a validation
error exactly for an offset outside [-12, 14]; for an in-range offset it
either overflows the supported calendar (an `OverflowError`, not a validation
error) or returns the original data together with a UTC-shifted `BirthData`
obtained by calendar-correct subtraction of the rounded offset: the result is
a valid calendar date/time whose civil-seconds timestamp is exactly the
truncated local timestamp minus the offset in seconds. -/
theorem c9_sanitize_spec (b : BirthData) (tz : ℚ) (hb : validBirthData b) :
    ((sanitize_birth_data b tz = .error .validation) ↔ ¬(-12 ≤ tz ∧ tz ≤ 14)) ∧
    (∀ _ : -12 ≤ tz ∧ tz ≤ 14,
      (¬(0 ≤ (localCivilSeconds b : ℚ) - round2 tz * 3600 ∧
          (localCivilSeconds b : ℚ) - round2 tz * 3600 < (DATETIME_MAX_SECONDS : ℚ)) →
        sanitize_birth_data b tz = .error .overflow) ∧
      ((0 ≤ (localCivilSeconds b : ℚ) - round2 tz * 3600 ∧
          (localCivilSeconds b : ℚ) - round2 tz * 3600 < (DATETIME_MAX_SECONDS : ℚ)) →
        ∃ utc : BirthData,
          sanitize_birth_data b tz = .ok (b, utc, round2 tz) ∧
          validBirthData utc ∧
          birthTimestamp utc = (localCivilSeconds b : ℚ) - round2 tz * 3600)) := by
  obtain ⟨hy1, hy2, hm1, hm2, hd1, hd2, hh0, hh1, hmi0, hmi1, hs0, hs1, hla0, hla1,
    hlo0, hlo1⟩ := hb
  have hguard : 1 ≤ b.year ∧ b.year ≤ 9999 ∧ 1 ≤ b.month ∧ b.month ≤ 12 ∧
      1 ≤ b.day ∧ b.day ≤ daysInMonth b.year b.month ∧
      0 ≤ pyInt b.hour ∧ pyInt b.hour ≤ 23 ∧
      0 ≤ pyInt b.minute ∧ pyInt b.minute ≤ 59 ∧
      0 ≤ pyInt b.second ∧ pyInt b.second ≤ 59 := by
    refine ⟨hy1, hy2, hm1, hm2, hd1, hd2, pyInt_nonneg hh0, ?_, pyInt_nonneg hmi0, ?_,
      pyInt_nonneg hs0, ?_⟩
    · have := pyInt_lt hh0 (show b.hour < ((24 : ℤ) : ℚ) by exact_mod_cast hh1)
      omega
    · have := pyInt_lt hmi0 (show b.minute < ((60 : ℤ) : ℚ) by exact_mod_cast hmi1)
      omega
    · have := pyInt_lt hs0 (show b.second < ((60 : ℤ) : ℚ) by exact_mod_cast hs1)
      omega
  constructor
  · by_cases hin : -12 ≤ tz ∧ tz ≤ 14
    · unfold sanitize_birth_data
      rw [if_neg (not_not_intro hin), if_neg (not_not_intro hguard)]
      dsimp only
      constructor
      · intro h
        exfalso
        split at h
        · exact SanitizeError.noConfusion (Except.error.inj h)
        · exact Except.noConfusion h
      · intro h
        exact absurd hin h
    · unfold sanitize_birth_data
      rw [if_pos hin]
      simp [hin]
  · intro hin
    constructor
    · intro hovf
      unfold sanitize_birth_data
      rw [if_neg (not_not_intro hin), if_neg (not_not_intro hguard)]
      dsimp only
      rw [if_pos hovf]
    · rintro ⟨hT0, hT1⟩
      unfold sanitize_birth_data
      rw [if_neg (not_not_intro hin), if_neg (not_not_intro hguard)]
      dsimp only
      rw [if_neg (not_not_intro ⟨hT0, hT1⟩)]
      have hZ : (localCivilSeconds b : ℚ) - round2 tz * 3600
          = ((localCivilSeconds b - 36 * roundHalfEven (tz * 100) : ℤ) : ℚ) := by
        unfold round2
        push_cast
        ring
      set K : ℤ := localCivilSeconds b - 36 * roundHalfEven (tz * 100) with hKdef
      have hK0 : 0 ≤ K := by
        rw [hZ] at hT0
        exact_mod_cast hT0
      have hKmax : K < 3652059 * 86400 := by
        rw [hZ, DATETIME_MAX_SECONDS_eq] at hT1
        exact_mod_cast hT1
      have hfloor : ⌊((localCivilSeconds b : ℚ) - round2 tz * 3600) / 86400⌋
          = K / 86400 := by
        rw [hZ, show (86400 : ℚ) = ((86400 : ℕ) : ℚ) by norm_num]
        exact Rat.floor_intCast_div_natCast K 86400
      have hq1 : 0 ≤ K % 86400 ∧ K % 86400 < 86400 :=
        ⟨Int.emod_nonneg K (by norm_num), Int.emod_lt_of_pos K (by norm_num)⟩
      have hdiv0 : 0 ≤ K / 86400 := Int.ediv_nonneg hK0 (by norm_num)
      have hdivmax : K / 86400 ≤ 3652058 := by omega
      have hsod : (localCivilSeconds b : ℚ) - round2 tz * 3600
            - ((K / 86400 : ℤ) : ℚ) * 86400 = ((K % 86400 : ℤ) : ℚ) := by
        rw [hZ]
        rw [Int.emod_def]
        push_cast
        ring
      have hh : ⌊((K % 86400 : ℤ) : ℚ) / 3600⌋ = (K % 86400) / 3600 := by
        rw [show (3600 : ℚ) = ((3600 : ℕ) : ℚ) by norm_num]
        exact Rat.floor_intCast_div_natCast _ 3600
      have hrem1 : ((K % 86400 : ℤ) : ℚ) - (((K % 86400) / 3600 : ℤ) : ℚ) * 3600
          = ((K % 86400 % 3600 : ℤ) : ℚ) := by
        rw [Int.emod_def (K % 86400) 3600]
        push_cast
        ring
      have hmi : ⌊((K % 86400 % 3600 : ℤ) : ℚ) / 60⌋ = K % 86400 % 3600 / 60 := by
        rw [show (60 : ℚ) = ((60 : ℕ) : ℚ) by norm_num]
        exact Rat.floor_intCast_div_natCast _ 60
      have hrem2 : ((K % 86400 % 3600 : ℤ) : ℚ)
            - ((K % 86400 % 3600 / 60 : ℤ) : ℚ) * 60
          = ((K % 86400 % 3600 % 60 : ℤ) : ℚ) := by
        rw [Int.emod_def (K % 86400 % 3600) 60]
        push_cast
        ring
      have hsfl : ⌊((K % 86400 % 3600 % 60 : ℤ) : ℚ)⌋ = K % 86400 % 3600 % 60 :=
        Int.floor_intCast _
      have hn1 : 1 ≤ (K / 86400).toNat + 1 := by omega
      have hn2 : (K / 86400).toNat + 1 ≤ daysBeforeYear 10000 := by
        rw [daysBeforeYear_10000]
        omega
      obtain ⟨hfy1, hfy2, hfm1, hfm2, hfd1, hfd2, hford⟩ :=
        fromOrdinal_spec ((K / 86400).toNat + 1) hn1 hn2
      refine ⟨_, rfl, ?_, ?_⟩
      · rw [hfloor, hsod, hh, hrem1, hmi, hrem2, hsfl]
        unfold validBirthData
        dsimp only
        refine ⟨hfy1, hfy2, hfm1, hfm2, hfd1, hfd2, ?_, ?_, ?_, ?_, ?_, ?_,
          hla0, hla1, hlo0, hlo1⟩
        · exact_mod_cast (by omega : (0 : ℤ) ≤ K % 86400 / 3600)
        · exact_mod_cast (by omega : K % 86400 / 3600 < 24)
        · exact_mod_cast (by omega : (0 : ℤ) ≤ K % 86400 % 3600 / 60)
        · exact_mod_cast (by omega : K % 86400 % 3600 / 60 < 60)
        · exact_mod_cast (by omega : (0 : ℤ) ≤ K % 86400 % 3600 % 60)
        · exact_mod_cast (by omega : K % 86400 % 3600 % 60 < 60)
      · rw [hfloor, hsod, hh, hrem1, hmi, hrem2, hsfl]
        unfold birthTimestamp
        dsimp only
        rw [hford, hZ]
        have hsplitK : K = 86400 * (K / 86400) + 3600 * (K % 86400 / 3600)
            + 60 * (K % 86400 % 3600 / 60) + K % 86400 % 3600 % 60 := by omega
        have htnq : (((K / 86400).toNat : ℕ) : ℚ) = ((K / 86400 : ℤ) : ℚ) := by
          exact_mod_cast Int.toNat_of_nonneg hdiv0
        push_cast
        rw [htnq]
        push_cast at hsplitK
        linarith [hsplitK]

/-- C9 counterexample: for the valid birth data 0001-01-01 00:00:00 and the
in-range offset +5.5 hours the UTC subtraction leaves the supported calendar
(years 1..9999), so the normalizer fails with an overflow error instead of
returning the original and UTC-shifted inputs as the claim states. -/
theorem c9_counterexample :
    validBirthData ⟨1, 1, 1, 0, 0, 0, 0, 0⟩ ∧
    (-12 ≤ (11 / 2 : ℚ) ∧ (11 / 2 : ℚ) ≤ 14) ∧
    sanitize_birth_data ⟨1, 1, 1, 0, 0, 0, 0, 0⟩ (11 / 2) = .error .overflow := by
  refine ⟨by decide, by norm_num, ?_⟩
  have hr2 : round2 (11 / 2 : ℚ) = 11 / 2 := by
    unfold round2 roundHalfEven
    norm_num
  have hloc : localCivilSeconds ⟨1, 1, 1, 0, 0, 0, 0, 0⟩ = 0 := by
    unfold localCivilSeconds
    rw [show toOrdinal 1 1 1 = 1 from rfl]
    norm_num [pyInt]
  unfold sanitize_birth_data
  rw [hloc, hr2]
  norm_num [pyInt, daysInMonth]

/-- Closed instance of the corrected C9: a valid 2000-05-15 birth input with
offset +5.5 obeys the validation-error characterization. -/
theorem c9_witness :
    validBirthData ⟨2000, 5, 15, 12, 30, 0, 13, 80⟩ ∧
    ((sanitize_birth_data ⟨2000, 5, 15, 12, 30, 0, 13, 80⟩ (11 / 2) = .error .validation)
      ↔ ¬(-12 ≤ (11 / 2 : ℚ) ∧ (11 / 2 : ℚ) ≤ 14)) :=
  ⟨by decide, (c9_sanitize_spec ⟨2000, 5, 15, 12, 30, 0, 13, 80⟩ (11 / 2) (by decide)).1⟩

/-- C10: the normalizer truncates the fractional parts of hour, minute and
second before the local-to-UTC conversion, so two inputs agreeing on date,
coordinates and those integer parts produce identical UTC-converted
`BirthData` under the same offset. -/
theorem c10_truncation_hyperproperty (b1 b2 : BirthData) (tz : ℚ)
    (hy : b1.year = b2.year) (hm : b1.month = b2.month) (hd : b1.day = b2.day)
    (hla : b1.latitude = b2.latitude) (hlo : b1.longitude = b2.longitude)
    (hh : pyInt b1.hour = pyInt b2.hour) (hmi : pyInt b1.minute = pyInt b2.minute)
    (hsec : pyInt b1.second = pyInt b2.second) :
    sanitizedUtc (sanitize_birth_data b1 tz) = sanitizedUtc (sanitize_birth_data b2 tz) := by
  have hloc : localCivilSeconds b1 = localCivilSeconds b2 := by
    unfold localCivilSeconds
    rw [hy, hm, hd, hh, hmi, hsec]
  unfold sanitize_birth_data
  dsimp only
  rw [hloc, hy, hm, hd, hla, hlo, hh, hmi, hsec]
  by_cases h1 : ¬(-12 ≤ tz ∧ tz ≤ 14)
  · rw [if_pos h1, if_pos h1]
  · rw [if_neg h1, if_neg h1]
    by_cases h2 : ¬(1 ≤ b2.year ∧ b2.year ≤ 9999 ∧ 1 ≤ b2.month ∧ b2.month ≤ 12 ∧
        1 ≤ b2.day ∧ b2.day ≤ daysInMonth b2.year b2.month ∧
        0 ≤ pyInt b2.hour ∧ pyInt b2.hour ≤ 23 ∧
        0 ≤ pyInt b2.minute ∧ pyInt b2.minute ≤ 59 ∧
        0 ≤ pyInt b2.second ∧ pyInt b2.second ≤ 59)
    · rw [if_pos h2, if_pos h2]
    · rw [if_neg h2, if_neg h2]
      by_cases h3 : ¬(0 ≤ (localCivilSeconds b2 : ℚ) - round2 tz * 3600 ∧
          (localCivilSeconds b2 : ℚ) - round2 tz * 3600 < (DATETIME_MAX_SECONDS : ℚ))
      · rw [if_pos h3, if_pos h3]
      · rw [if_neg h3, if_neg h3]
        rfl

/-- Closed instance of C10: inputs differing only in the fractional parts
12.7 vs 12.2 hours and 30.9 vs 30.1 minutes yield the same UTC data. -/
theorem c10_witness :
    sanitizedUtc (sanitize_birth_data ⟨2000, 5, 15, 127 / 10, 309 / 10, 0, 13, 80⟩ (11 / 2))
      = sanitizedUtc (sanitize_birth_data ⟨2000, 5, 15, 61 / 5, 301 / 10, 0, 13, 80⟩ (11 / 2)) :=
  c10_truncation_hyperproperty _ _ _ rfl rfl rfl rfl rfl
    (show pyInt (127 / 10 : ℚ) = pyInt (61 / 5 : ℚ) by norm_num [pyInt])
    (show pyInt (309 / 10 : ℚ) = pyInt (301 / 10 : ℚ) by norm_num [pyInt])
    rfl
